import Mathlib

/-!
Verification of the WebSocket subscription / connection-management module
(`websocket.util.ts` and `WebSocketProvider.tsx`).

The development is a shallow embedding: the `Subscription` class of
`websocket.util.ts` is modelled as a Lean structure with one function per
method, and the provider component of `WebSocketProvider.tsx` is modelled
as a state machine (`PState`, `step`, `run`) driven by the serialized
events the real code reacts to (caller operations and the transport's
success / error / close callbacks).  Observable side effects (transport
calls, callback invocations) are recorded in an `out` trace in execution
order.
-/

namespace WS

/-- The shared transport client as observed by a `Subscription`: only its
`connected` flag is read by the embedded code paths. -/
structure Client where
  connected : Bool
deriving DecidableEq

/-- Result of one invocation of the caller-supplied async
`pollingCallback`: the promise either resolves to a boolean (`ok`) or
rejects / throws (`thrown`). -/
inductive PollResult where
  | ok (again : Bool)
  | thrown
deriving DecidableEq

/-- The `ISubscribeOptions` bag of `websocket.util.ts`.  The optional
callback is represented by the result it produces when invoked; `none`
models an absent (`undefined`) field. -/
structure ISubscribeOptions where
  pollingCallback : Option PollResult := none
  pollingDelay : Option Nat := none
  fallbackPollingDelay : Option Nat := none
deriving DecidableEq

def DEFAULT_POLLING_DELAY : Nat := 3000

def DEFAULT_FIXED_POLLING_DELAY : Nat := 20000

/-- JavaScript `v || d` on an optional numeric field: `undefined`
(modelled `none`) and the falsy number `0` both select the default. -/
def jsOrDefault (v : Option Nat) (d : Nat) : Nat :=
  match v with
  | some n => if n = 0 then d else n
  | none => d

/-- State of one `Subscription` object.  `subscription` is the live
handle returned by the transport's subscribe primitive (`Option Unit`:
present or absent). -/
structure Subscription where
  id : Nat
  client : Option Client
  topicId : String
  subscription : Option Unit
  pollingCallback : Option PollResult
  pollingDelay : Nat
  fallbackPollingDelay : Nat
deriving DecidableEq

/-- The read `this.client?.connected` (a missing client is falsy). -/
def Subscription.clientConnected (s : Subscription) : Bool :=
  match s.client with
  | some c => c.connected
  | none => false

/-- `subscribe()`: if the bound client exists and is connected, issue the
transport subscribe primitive and store the resulting live handle (the
real method also starts the fallback poll loop, modelled separately by
`fallbackPollingRun`); otherwise a no-op. -/
def Subscription.subscribeStep (s : Subscription) : Subscription :=
  if s.clientConnected then { s with subscription := some () } else s

/-- The `Subscription` constructor: store the options (with the two delays
defaulted through `||`), record the client and topic, assign the fresh
id, and invoke `subscribe()`. -/
def mkSubscription (client : Option Client) (topicId : String)
    (options : ISubscribeOptions) (freshId : Nat) : Subscription :=
  Subscription.subscribeStep
    { id := freshId
      client := client
      topicId := topicId
      subscription := none
      pollingCallback := options.pollingCallback
      pollingDelay := jsOrDefault options.pollingDelay DEFAULT_POLLING_DELAY
      fallbackPollingDelay :=
        jsOrDefault options.fallbackPollingDelay DEFAULT_FIXED_POLLING_DELAY }

/-- What a single timer tick of a poll loop does. -/
inductive TickOutcome where
  /-- the callback returned `true`: exactly one successor tick scheduled -/
  | rescheduled
  /-- the callback returned `false`: `unsubscribe()` called, no successor -/
  | unsubscribed
  /-- the tick's guard failed: callback not invoked, no successor -/
  | skipped
  /-- the awaited callback rejected: the rejection escapes the async tick
      body unhandled; `unsubscribe()` is not called and no successor is
      scheduled -/
  | errorEscaped
deriving DecidableEq

/-- `startPolling()` and the primary-loop tick it schedules, evaluated
against the subscription state at firing time.  The whole `setTimeout` is
guarded by `if (this.pollingCallback)`, so with an absent callback no
tick is scheduled at all (`none`). -/
def startPollingRun (s : Subscription) : Option TickOutcome :=
  match s.pollingCallback with
  | none => none
  | some cb =>
      some
        (if s.clientConnected then .skipped
         else
           match cb with
           | .ok true => .rescheduled
           | .ok false => .unsubscribed
           | .thrown => .errorEscaped)

/-- `fallbackPolling()` and the fallback-loop tick it schedules: runs the
callback only while the client is connected and a live handle is held. -/
def fallbackPollingRun (s : Subscription) : Option TickOutcome :=
  match s.pollingCallback with
  | none => none
  | some cb =>
      some
        (if s.clientConnected && s.subscription.isSome then
           match cb with
           | .ok true => .rescheduled
           | .ok false => .unsubscribed
           | .thrown => .errorEscaped
         else .skipped)

/-- Observable effects of one call to `Subscription.unsubscribe()`. -/
structure UnsubscribeEffects where
  /-- `this.subscription?.unsubscribe()` actually reached a live handle -/
  transportUnsubInvoked : Bool
  /-- the argument `onUnsubscribe` was invoked with (always `this.id`) -/
  onUnsubscribeInvokedWith : Option Nat
deriving DecidableEq

/-- `unsubscribe()`: the transport unsubscribe primitive runs only when
the client exists, is connected, and a live handle is held (optional
chaining); `onUnsubscribe(this.id)` runs unconditionally afterwards. -/
def Subscription.unsubscribeRun (s : Subscription) : UnsubscribeEffects :=
  { transportUnsubInvoked := s.clientConnected && s.subscription.isSome
    onUnsubscribeInvokedWith := some s.id }

/-- The provider's `onUnsubscribe` handler: delete the entry for `id`
from the registry map if present. -/
def onUnsubscribeFn (id : Nat) (subs : List (Nat × String)) :
    List (Nat × String) :=
  if (subs.lookup id).isSome then subs.filter (fun p => p.1 != id) else subs

/-! ## The provider state machine (`WebSocketProvider.tsx`) -/

def DEFAULT_RECONNECTION_DELAY : Nat := 5000

def DEFAULT_RECONNECTION_TRIES : Nat := 3

/-- Provider configuration after the `useMemo` defaulting of
`reconnectionDelay` and `reconnectionTries`. -/
structure Config where
  reconnectDelay : Nat := DEFAULT_RECONNECTION_DELAY
  clientMaxReconnectionTries : Nat := DEFAULT_RECONNECTION_TRIES
  sendMessageUrl : Option String := none

/-- Observable transport-level and callback-level actions, recorded in
execution order. -/
inductive Action where
  /-- a Subscription was bound to the live client and subscribed -/
  | subBind (id : Nat)
  /-- `startPolling()` was requested on one subscription -/
  | subStartPolling (id : Nat)
  /-- `subscribe()` was re-issued on one subscription after a break -/
  | subResubscribe (id : Nat)
  /-- `Subscription.unsubscribe()` was invoked on one subscription -/
  | subUnsubscribe (id : Nat)
  /-- the guarded body of `startAllPollings` ran -/
  | startPollingAll
  /-- `beforeDisconnectCallback.current` was invoked with this topic id -/
  | hookCall (topicId : String)
  /-- `client.send(url, {}, body)` -/
  | send (url : String) (body : String)
  /-- the transport disconnect primitive `client.disconnect` was issued -/
  | disconnectPrim
  /-- a disconnect-notification function (identified by number) ran -/
  | notifyDisconnect (cb : Nat)
deriving DecidableEq

/-- The provider's mutable state: the subscription registry
(`subscriptionsRef`, id/topic pairs with unique ids), the refs of the
component, the client's observable status, plus the recorded output
trace `out` and a ghost counter of `startAllPollings` body executions
since the last successful connect. -/
structure PState where
  subs : List (Nat × String)
  nextId : Nat
  pendingWaiters : Nat
  isFirstConnection : Bool
  clientReconnectionTries : Nat
  isClientConnectionBroken : Bool
  isPollingActive : Bool
  isClientDisconnectedForced : Bool
  connected : Bool
  activeConn : Bool
  reconnectDelayCur : Nat
  registeredDisconnectCb : Nat
  capturedDisconnectHandler : Nat
  beforeDisconnectCb : Option (String → String)
  out : List Action
  pollActivationsSinceSuccess : Nat

/-- The state at mount: empty registry, no waiters, first-connection
phase, the no-op disconnect callback (identity `0`) both stored in the
ref and captured once by `useCallback(disconnectCallback.current, [])`
into `onDisconnectHandler`. -/
def initialState (cfg : Config) : PState :=
  { subs := []
    nextId := 0
    pendingWaiters := 0
    isFirstConnection := true
    clientReconnectionTries := 0
    isClientConnectionBroken := false
    isPollingActive := false
    isClientDisconnectedForced := false
    connected := false
    activeConn := false
    reconnectDelayCur := cfg.reconnectDelay
    registeredDisconnectCb := 0
    capturedDisconnectHandler := 0
    beforeDisconnectCb := none
    out := []
    pollActivationsSinceSuccess := 0 }

/-- `resolveAllPromises`: release every pending first-connection waiter
(resolving an already-resolved promise is a no-op, so the unresolved
count drops to zero). -/
def resolveAllPromises (s : PState) : PState :=
  { s with pendingWaiters := 0 }

/-- `startAllPollings`: guarded by `isPollingActive`; when the guard
passes, set the flag and request `startPolling()` on every registry
entry. -/
def startAllPollings (s : PState) : PState :=
  if s.isPollingActive then s
  else
    { s with
      isPollingActive := true
      out := s.out ++ [Action.startPollingAll] ++ s.subs.map (fun p => Action.subStartPolling p.1)
      pollActivationsSinceSuccess := s.pollActivationsSinceSuccess + 1 }

/-- `checkAndDisconnectClient(topicId)`: when the registry is empty and
the client connected, set the forced-disconnect flag, optionally invoke
the before-disconnect hook and send its result, then issue the transport
disconnect primitive with the captured `onDisconnectHandler` as the
completion handler (the disconnect tears the session down). -/
def checkAndDisconnectClient (cfg : Config) (topicId : String) (s : PState) : PState :=
  if s.subs.isEmpty && s.connected then
    let s1 := { s with isClientDisconnectedForced := true }
    let s2 :=
      match s1.beforeDisconnectCb, cfg.sendMessageUrl with
      | some hook, some url =>
          { s1 with out := s1.out ++ [Action.hookCall topicId, Action.send url (hook topicId)] }
      | _, _ => s1
    { s2 with
      out := s2.out ++ [Action.disconnectPrim, Action.notifyDisconnect s2.capturedDisconnectHandler]
      connected := false
      activeConn := false }
  else s

/-- `unsubscribeAll`: remember the topic id of the single remaining entry
if exactly one exists, unsubscribe every entry when connected, delete all
entries, then `checkAndDisconnectClient(getLastTopicId || '')`. -/
def unsubscribeAllFn (cfg : Config) (s : PState) : PState :=
  let lastTopic : String :=
    match s.subs with
    | [p] => p.2
    | _ => ""
  let s1 :=
    if s.connected then
      { s with out := s.out ++ s.subs.map (fun p => Action.subUnsubscribe p.1), subs := [] }
    else { s with subs := [] }
  checkAndDisconnectClient cfg lastTopic s1

/-- `connectSuccessCallback`: on a broken connection re-issue
`subscribe()` on every entry, otherwise release the waiters and rebind
every entry via `setClientAndSubscribe`; in both cases reset
`isPollingActive`, `clientReconnectionTries`, the client's
`reconnectDelay`, and end the first-connection phase.  Note the broken
flag `isClientConnectionBroken` is not written here. -/
def connectSuccessCallback (cfg : Config) (s : PState) : PState :=
  let s1 :=
    if s.isClientConnectionBroken then
      { s with
        out := s.out ++ (if s.connected then s.subs.map (fun p : Nat × String => Action.subResubscribe p.1) else []) }
    else
      let sa := resolveAllPromises s
      { sa with
        out := sa.out ++ (if sa.connected then sa.subs.map (fun p : Nat × String => Action.subBind p.1) else []) }
  { s1 with
    isPollingActive := false
    clientReconnectionTries := 0
    reconnectDelayCur := cfg.reconnectDelay
    isFirstConnection := false
    pollActivationsSinceSuccess := 0 }

/-- `connectErrorCallback`: release every waiter and end the
first-connection phase. -/
def connectErrorCallback (s : PState) : PState :=
  { resolveAllPromises s with isFirstConnection := false }

/-- `connectCloseCallback`: after the first connection, a forced close
just clears the forced flag; an unforced close marks the connection
broken and either (below the max) starts the pollings and counts the
attempt, or (at the max) disables auto-retry, tears the registry down
and runs `onDisconnectHandler`.  During the first-connection phase a
close below the max just counts the attempt, and at the max disables
auto-retry, releases the waiters, and ends the phase. -/
def connectCloseCallback (cfg : Config) (s : PState) : PState :=
  if !s.isFirstConnection then
    if s.isClientDisconnectedForced then
      { s with isClientDisconnectedForced := false }
    else
      let s1 := { s with isClientConnectionBroken := true }
      if s1.clientReconnectionTries < cfg.clientMaxReconnectionTries then
        let s2 := startAllPollings s1
        { s2 with clientReconnectionTries := s2.clientReconnectionTries + 1 }
      else
        let s2 := { s1 with reconnectDelayCur := 0 }
        let s3 := unsubscribeAllFn cfg s2
        { s3 with out := s3.out ++ [Action.notifyDisconnect s3.capturedDisconnectHandler] }
  else
    if s.clientReconnectionTries < cfg.clientMaxReconnectionTries then
      { s with clientReconnectionTries := s.clientReconnectionTries + 1 }
    else
      { s with reconnectDelayCur := 0, pendingWaiters := 0, isFirstConnection := false }

/-- `subscribe(topicId, options)`: construct the Subscription (bound and
subscribed only when the client is connected), register it, start its
primary poll loop when not connected, and during the first-connection
phase push a waiter and (unless already active) issue the transport
connect. -/
def subscribeFn (topicId : String) (s : PState) : PState :=
  let newId := s.nextId
  let s1 :=
    { s with
      subs := s.subs ++ [(newId, topicId)]
      nextId := s.nextId + 1
      out := s.out ++ (if s.connected then [Action.subBind newId] else []) }
  let s2 :=
    if !s1.connected then { s1 with out := s1.out ++ [Action.subStartPolling newId] } else s1
  if s2.isFirstConnection then
    let s3 := { s2 with pendingWaiters := s2.pendingWaiters + 1 }
    if !s3.activeConn then { s3 with activeConn := true } else s3
  else s2

/-- `unsubscribe(id)`: when the entry exists, read its topic id and call
`Subscription.unsubscribe()` if connected, delete the entry, then
`checkAndDisconnectClient(topicId)` (a `null` topic id is passed as the
empty string; it is only read on the connected path). -/
def unsubscribeFn (cfg : Config) (id : Nat) (s : PState) : PState :=
  match s.subs.lookup id with
  | some t =>
      let s1 :=
        if s.connected then { s with out := s.out ++ [Action.subUnsubscribe id] } else s
      let s2 := { s1 with subs := s1.subs.filter (fun p => p.1 != id) }
      checkAndDisconnectClient cfg (if s.connected then t else "") s2
  | none => s

/-- The serialized events driving the provider: caller operations and
the transport's callbacks.  A success sets `connected` before the
success callback runs, a close clears it before the close callback
runs. -/
inductive Event where
  | subscribe (topicId : String)
  | unsubscribe (id : Nat)
  | unsubscribeAll
  | registerOnDisconnect (cb : Nat)
  | registerOnBeforeDisconnect (hook : String → String)
  | connSuccess
  | connClose
  | connError

/-- One provider step. -/
def step (cfg : Config) (s : PState) : Event → PState
  | .subscribe t => subscribeFn t s
  | .unsubscribe id => unsubscribeFn cfg id s
  | .unsubscribeAll => unsubscribeAllFn cfg s
  | .registerOnDisconnect cb => { s with registeredDisconnectCb := cb }
  | .registerOnBeforeDisconnect h => { s with beforeDisconnectCb := some h }
  | .connSuccess => connectSuccessCallback cfg { s with connected := true, activeConn := true }
  | .connClose => connectCloseCallback cfg { s with connected := false }
  | .connError => connectErrorCallback s

/-- Run a list of events from a given state. -/
def runFrom (cfg : Config) (s : PState) (es : List Event) : PState :=
  es.foldl (step cfg) s

/-- Run a list of events from the mount state. -/
def run (cfg : Config) (es : List Event) : PState :=
  runFrom cfg (initialState cfg) es

/-- Caller-initiated registry operations (no transport callbacks). -/
def isSubOrUnsub : Event → Bool
  | .subscribe _ => true
  | .unsubscribe _ => true
  | .unsubscribeAll => true
  | _ => false

/-- Recognizer for the transport disconnect primitive in the trace. -/
def isDisconnectPrim : Action → Bool
  | .disconnectPrim => true
  | _ => false

/-- Number of transport disconnect issuances recorded in a trace. -/
def countD (out : List Action) : Nat :=
  out.countP isDisconnectPrim

/-! ## Helper lemmas -/

theorem lookup_filter_ne_eq_none (id : Nat) (l : List (Nat × String)) :
    (l.filter (fun p => p.1 != id)).lookup id = none := by
  induction l with
  | nil => rfl
  | cons p l ih =>
      obtain ⟨k, v⟩ := p
      rw [List.filter_cons]
      by_cases h : k = id
      · simpa [h] using ih
      · have hne : (id == k) = false := by
          simpa using Ne.symm h
        simpa [List.lookup, hne, h] using ih

theorem jsOrDefault_pos (v : Option Nat) (d : Nat) (hd : 0 < d) :
    0 < jsOrDefault v d := by
  unfold jsOrDefault
  cases v with
  | none => exact hd
  | some n =>
      by_cases h : n = 0
      · simpa [h] using hd
      · simpa [h] using Nat.pos_of_ne_zero h

theorem jsOrDefault_falsy (v : Option Nat) (d : Nat)
    (h : v = some 0 ∨ v = none) : jsOrDefault v d = d := by
  rcases h with h | h <;> simp [jsOrDefault, h]

theorem mkSubscription_pollingDelay (client : Option Client) (topicId : String)
    (options : ISubscribeOptions) (freshId : Nat) :
    (mkSubscription client topicId options freshId).pollingDelay
      = jsOrDefault options.pollingDelay DEFAULT_POLLING_DELAY := by
  unfold mkSubscription Subscription.subscribeStep
  split <;> rfl

theorem mkSubscription_fallbackPollingDelay (client : Option Client) (topicId : String)
    (options : ISubscribeOptions) (freshId : Nat) :
    (mkSubscription client topicId options freshId).fallbackPollingDelay
      = jsOrDefault options.fallbackPollingDelay DEFAULT_FIXED_POLLING_DELAY := by
  unfold mkSubscription Subscription.subscribeStep
  split <;> rfl

/-! ## Claims about the Subscription class -/

/-- A subscription created with no options at all. -/
def subNoCallback : Subscription := mkSubscription none "orders" ⟨none, none, none⟩ 0

/-- A subscription whose poll callback answers `false`. -/
def subFalseCallback : Subscription :=
  mkSubscription none "orders" ⟨some (.ok false), none, none⟩ 1

/-- An unbound subscription whose poll callback rejects. -/
def subThrowUnbound : Subscription :=
  mkSubscription none "orders" ⟨some .thrown, none, none⟩ 2

/-- A subscription bound to a connected client (hence holding a live
handle) whose poll callback rejects. -/
def subThrowBound : Subscription :=
  mkSubscription (some ⟨true⟩) "orders" ⟨some .thrown, none, none⟩ 3

/-- C6 (counterexample): for a Subscription whose `pollingCallback` is
absent, `startPolling()` schedules no tick at all — refuting the claim
that a tick is still scheduled and, firing while disconnected, calls
`unsubscribe()`. -/
theorem startPolling_absent_schedules_nothing_cex :
    subNoCallback.pollingCallback = none ∧ startPollingRun subNoCallback = none :=
  ⟨rfl, rfl⟩

/-- C6 (amended): with an absent `pollingCallback`, `startPolling` is a
complete no-op — no tick is scheduled and `unsubscribe()` is never
called; with a callback present that returns `false` while the
connection is not connected, the tick calls `unsubscribe()` and the loop
does not reschedule. -/
theorem startPolling_absent_noop_false_unsubscribes :
    (∀ s : Subscription, s.pollingCallback = none → startPollingRun s = none) ∧
    (∀ s : Subscription, s.pollingCallback = some (.ok false) →
        s.clientConnected = false → startPollingRun s = some .unsubscribed) := by
  constructor
  · intro s h
    simp [startPollingRun, h]
  · intro s h hc
    simp [startPollingRun, h, hc]

theorem startPolling_absent_noop_false_unsubscribes_witness :
    startPollingRun subNoCallback = none ∧
    startPollingRun subFalseCallback = some .unsubscribed :=
  ⟨startPolling_absent_noop_false_unsubscribes.1 subNoCallback rfl,
   startPolling_absent_noop_false_unsubscribes.2 subFalseCallback rfl rfl⟩

/-- C7 (code bug): a rejecting `pollingCallback` is not treated like a
`false` result: in the primary loop (connection down) as well as in the
fallback loop (connected with a live handle) the awaited rejection
escapes the tick unhandled, and `unsubscribe()` is not called. -/
theorem polling_rejection_escapes_not_unsubscribed :
    startPollingRun subThrowUnbound = some .errorEscaped ∧
    fallbackPollingRun subThrowBound = some .errorEscaped ∧
    TickOutcome.errorEscaped ≠ TickOutcome.unsubscribed :=
  ⟨rfl, rfl, by decide⟩

/-- C8: `Subscription.unsubscribe()` always invokes the registered
`onUnsubscribe` callback with the subscription's own id — whereupon the
provider's handler removes the registry entry for that id — and the
transport unsubscribe primitive on the live handle is invoked exactly
when the bound client is currently connected.  The hypothesis records
the provider's binding discipline (spec data model: a live handle is
held whenever a client is bound, since binding happens only while
connected and immediately subscribes). -/
theorem unsubscribe_always_notifies_transport_iff_connected
    (s : Subscription) (subs : List (Nat × String))
    (hhandle : s.client.isSome → s.subscription.isSome) :
    s.unsubscribeRun.onUnsubscribeInvokedWith = some s.id ∧
    (s.unsubscribeRun.transportUnsubInvoked = true ↔ s.clientConnected = true) ∧
    (onUnsubscribeFn s.id subs).lookup s.id = none := by
  refine ⟨rfl, ?_, ?_⟩
  · unfold Subscription.unsubscribeRun
    simp only [Bool.and_eq_true]
    constructor
    · intro h
      exact h.1
    · intro h
      have hcl : s.client.isSome := by
        unfold Subscription.clientConnected at h
        cases hc : s.client with
        | none => rw [hc] at h; cases h
        | some c => simp
      exact ⟨h, hhandle hcl⟩
  · unfold onUnsubscribeFn
    split
    · exact lookup_filter_ne_eq_none s.id subs
    · next hnone =>
        exact Option.not_isSome_iff_eq_none.mp hnone

theorem unsubscribe_always_notifies_transport_iff_connected_witness :
    (mkSubscription (some ⟨true⟩) "orders" ⟨none, none, none⟩ 5).unsubscribeRun.onUnsubscribeInvokedWith
        = some 5 ∧
    ((mkSubscription (some ⟨true⟩) "orders" ⟨none, none, none⟩ 5).unsubscribeRun.transportUnsubInvoked = true
        ↔ (mkSubscription (some ⟨true⟩) "orders" ⟨none, none, none⟩ 5).clientConnected = true) ∧
    (onUnsubscribeFn 5 [(5, "orders")]).lookup 5 = none :=
  unsubscribe_always_notifies_transport_iff_connected
    (mkSubscription (some ⟨true⟩) "orders" ⟨none, none, none⟩ 5) [(5, "orders")]
    (fun _ => rfl)

/-- C10: the constructor substitutes the defaults 3000 / 20000 whenever a
caller-supplied delay is `0` (JavaScript falsy) or absent, so the stored
delay fields are always positive, and a caller-supplied `0` is never
honored. -/
theorem constructor_delay_defaults (client : Option Client) (topicId : String)
    (options : ISubscribeOptions) (freshId : Nat) :
    0 < (mkSubscription client topicId options freshId).pollingDelay ∧
    0 < (mkSubscription client topicId options freshId).fallbackPollingDelay ∧
    ((options.pollingDelay = some 0 ∨ options.pollingDelay = none) →
      (mkSubscription client topicId options freshId).pollingDelay = DEFAULT_POLLING_DELAY) ∧
    ((options.fallbackPollingDelay = some 0 ∨ options.fallbackPollingDelay = none) →
      (mkSubscription client topicId options freshId).fallbackPollingDelay
        = DEFAULT_FIXED_POLLING_DELAY) := by
  rw [mkSubscription_pollingDelay, mkSubscription_fallbackPollingDelay]
  refine ⟨?_, ?_, ?_, ?_⟩
  · exact jsOrDefault_pos _ _ (by decide)
  · exact jsOrDefault_pos _ _ (by decide)
  · intro h
    exact jsOrDefault_falsy _ _ h
  · intro h
    exact jsOrDefault_falsy _ _ h

theorem constructor_delay_defaults_witness :
    0 < (mkSubscription none "orders" ⟨none, some 0, none⟩ 4).pollingDelay ∧
    (mkSubscription none "orders" ⟨none, some 0, none⟩ 4).pollingDelay = DEFAULT_POLLING_DELAY ∧
    (mkSubscription none "orders" ⟨none, some 0, none⟩ 4).fallbackPollingDelay
      = DEFAULT_FIXED_POLLING_DELAY := by
  obtain ⟨h1, _, h3, h4⟩ := constructor_delay_defaults none "orders" ⟨none, some 0, none⟩ 4
  exact ⟨h1, h3 (Or.inl rfl), h4 (Or.inr rfl)⟩

/-! ## Provider helper lemmas -/

theorem countD_append (a b : List Action) :
    countD (a ++ b) = countD a + countD b :=
  List.countP_append ..

theorem countD_map_eq_zero {α : Type} (f : α → Action)
    (hf : ∀ x, isDisconnectPrim (f x) = false) (l : List α) :
    countD (l.map f) = 0 := by
  unfold countD
  rw [List.countP_map]
  simp only [List.countP_eq_zero, Function.comp]
  intro a _
  simp [hf a]

theorem countD_nil : countD [] = 0 := rfl

theorem countD_singleton (a : Action) :
    countD [a] = if isDisconnectPrim a then 1 else 0 := by
  simp [countD, List.countP_cons]

/-- Fields `checkAndDisconnectClient` never writes. -/
theorem checkAndDisconnect_preserved (cfg : Config) (t : String) (s : PState) :
    (checkAndDisconnectClient cfg t s).clientReconnectionTries = s.clientReconnectionTries ∧
    (checkAndDisconnectClient cfg t s).isPollingActive = s.isPollingActive ∧
    (checkAndDisconnectClient cfg t s).pollActivationsSinceSuccess = s.pollActivationsSinceSuccess ∧
    (checkAndDisconnectClient cfg t s).subs = s.subs ∧
    (checkAndDisconnectClient cfg t s).isFirstConnection = s.isFirstConnection := by
  unfold checkAndDisconnectClient
  split
  · cases hb : s.beforeDisconnectCb <;> cases hu : cfg.sendMessageUrl <;> simp [hb, hu]
  · simp

/-- `checkAndDisconnectClient` either does nothing, or (registry empty,
client connected) flips `connected` off and issues exactly one transport
disconnect. -/
theorem checkAndDisconnect_cases (cfg : Config) (t : String) (s : PState) :
    checkAndDisconnectClient cfg t s = s ∨
    (s.connected = true ∧ s.subs = [] ∧
      (checkAndDisconnectClient cfg t s).connected = false ∧
      countD (checkAndDisconnectClient cfg t s).out = countD s.out + 1) := by
  unfold checkAndDisconnectClient
  by_cases hg : (s.subs.isEmpty && s.connected) = true
  · right
    have hc : s.connected = true := ((Bool.and_eq_true _ _).mp hg).2
    have hs : s.subs = [] := by
      have := ((Bool.and_eq_true _ _).mp hg).1
      simpa using this
    rw [if_pos hg]
    refine ⟨hc, hs, ?_, ?_⟩ <;>
      cases hb : s.beforeDisconnectCb <;> cases hu : cfg.sendMessageUrl <;>
        simp [hb, hu, countD_append, countD, List.countP_cons, isDisconnectPrim]
  · left
    rw [if_neg hg]

/-- Fields `startAllPollings` never writes, and the effect of its guard. -/
theorem startAllPollings_effect (s : PState) :
    (startAllPollings s).clientReconnectionTries = s.clientReconnectionTries ∧
    (startAllPollings s).subs = s.subs ∧
    (startAllPollings s).connected = s.connected ∧
    countD (startAllPollings s).out = countD s.out ∧
    (startAllPollings s).isPollingActive = true ∨ startAllPollings s = s := by
  unfold startAllPollings
  by_cases h : s.isPollingActive = true
  · right
    rw [if_pos h]
  · left
    rw [if_neg h]
    refine ⟨rfl, rfl, rfl, ?_, rfl⟩
    simp [countD_append, countD, List.countP_cons, isDisconnectPrim, List.countP_map]

/-- Composition helper: running `checkAndDisconnectClient` after a state
transformation whose effect on the relevant fields is known. -/
theorem check_compose (cfg : Config) (t : String) (s1 s : PState)
    (newSubs : List (Nat × String))
    (hsubs : s1.subs = newSubs)
    (htr : s1.clientReconnectionTries = s.clientReconnectionTries)
    (hpa : s1.isPollingActive = s.isPollingActive)
    (hgh : s1.pollActivationsSinceSuccess = s.pollActivationsSinceSuccess)
    (hconn : s1.connected = s.connected)
    (hout : countD s1.out = countD s.out) :
    (checkAndDisconnectClient cfg t s1).subs = newSubs ∧
    (checkAndDisconnectClient cfg t s1).clientReconnectionTries = s.clientReconnectionTries ∧
    (checkAndDisconnectClient cfg t s1).isPollingActive = s.isPollingActive ∧
    (checkAndDisconnectClient cfg t s1).pollActivationsSinceSuccess
      = s.pollActivationsSinceSuccess ∧
    ((countD (checkAndDisconnectClient cfg t s1).out = countD s.out ∧
        (checkAndDisconnectClient cfg t s1).connected = s.connected) ∨
      (s.connected = true ∧ newSubs = [] ∧
        (checkAndDisconnectClient cfg t s1).connected = false ∧
        countD (checkAndDisconnectClient cfg t s1).out = countD s.out + 1)) := by
  obtain ⟨p1, p2, p3, p4, _⟩ := checkAndDisconnect_preserved cfg t s1
  rcases checkAndDisconnect_cases cfg t s1 with heq | ⟨h1, hemp, h2, h3⟩
  · rw [heq]
    exact ⟨hsubs, htr, hpa, hgh, Or.inl ⟨hout, hconn⟩⟩
  · refine ⟨?_, ?_, ?_, ?_, Or.inr ⟨?_, ?_, h2, ?_⟩⟩
    · rw [p4, hsubs]
    · rw [p1, htr]
    · rw [p2, hpa]
    · rw [p3, hgh]
    · rw [← hconn]
      exact h1
    · rw [← hsubs]
      exact hemp
    · rw [h3, hout]

/-- `unsubscribeAllFn` empties the registry, leaves the retry counter and
the polling flags alone, and either leaves `connected`/`countD` alone or
flips `connected` off adding exactly one transport disconnect. -/
theorem unsubscribeAllFn_effect (cfg : Config) (s : PState) :
    (unsubscribeAllFn cfg s).subs = [] ∧
    (unsubscribeAllFn cfg s).clientReconnectionTries = s.clientReconnectionTries ∧
    (unsubscribeAllFn cfg s).isPollingActive = s.isPollingActive ∧
    (unsubscribeAllFn cfg s).pollActivationsSinceSuccess = s.pollActivationsSinceSuccess ∧
    ((countD (unsubscribeAllFn cfg s).out = countD s.out ∧
        (unsubscribeAllFn cfg s).connected = s.connected) ∨
      (s.connected = true ∧ (unsubscribeAllFn cfg s).connected = false ∧
        countD (unsubscribeAllFn cfg s).out = countD s.out + 1)) := by
  unfold unsubscribeAllFn
  by_cases hc : s.connected = true
  · rw [if_pos hc]
    obtain ⟨q1, q2, q3, q4, q5⟩ :=
      check_compose cfg (match s.subs with | [p] => p.2 | _ => "")
        { s with out := s.out ++ s.subs.map (fun p => Action.subUnsubscribe p.1), subs := [] }
        s [] rfl rfl rfl rfl rfl
        (by
          simp [countD_append, countD, List.countP_map, List.countP_eq_zero,
            Function.comp, isDisconnectPrim])
    refine ⟨q1, q2, q3, q4, ?_⟩
    rcases q5 with ⟨ho, hcn⟩ | ⟨h1, _, h2, h3⟩
    · exact Or.inl ⟨ho, hcn⟩
    · exact Or.inr ⟨h1, h2, h3⟩
  · rw [if_neg hc]
    obtain ⟨q1, q2, q3, q4, q5⟩ :=
      check_compose cfg (match s.subs with | [p] => p.2 | _ => "")
        { s with subs := [] } s [] rfl rfl rfl rfl rfl rfl
    refine ⟨q1, q2, q3, q4, ?_⟩
    rcases q5 with ⟨ho, hcn⟩ | ⟨h1, _, h2, h3⟩
    · exact Or.inl ⟨ho, hcn⟩
    · exact Or.inr ⟨h1, h2, h3⟩

/-- `subscribeFn` only grows the registry and the non-disconnect part of
the trace; connection status, retry counter and polling flags are
untouched. -/
theorem subscribeFn_effect (t : String) (s : PState) :
    countD (subscribeFn t s).out = countD s.out ∧
    (subscribeFn t s).connected = s.connected ∧
    (subscribeFn t s).clientReconnectionTries = s.clientReconnectionTries ∧
    (subscribeFn t s).isPollingActive = s.isPollingActive ∧
    (subscribeFn t s).pollActivationsSinceSuccess = s.pollActivationsSinceSuccess ∧
    (subscribeFn t s).subs = s.subs ++ [(s.nextId, t)] := by
  unfold subscribeFn
  by_cases hc : s.connected = true <;> by_cases hf : s.isFirstConnection = true <;>
    by_cases ha : s.activeConn = true <;>
      simp [hc, hf, ha, countD_append, countD, List.countP_cons, isDisconnectPrim]

/-- Fields `startAllPollings` never writes. -/
theorem startAllPollings_preserved (s : PState) :
    (startAllPollings s).clientReconnectionTries = s.clientReconnectionTries ∧
    (startAllPollings s).subs = s.subs ∧
    (startAllPollings s).connected = s.connected ∧
    countD (startAllPollings s).out = countD s.out := by
  unfold startAllPollings
  by_cases h : s.isPollingActive = true
  · rw [if_pos h]
    exact ⟨rfl, rfl, rfl, rfl⟩
  · rw [if_neg h]
    refine ⟨rfl, rfl, rfl, ?_⟩
    simp [countD_append, countD, List.countP_cons, isDisconnectPrim, List.countP_map]

/-- `unsubscribeFn` leaves the retry counter and polling flags alone, and
either leaves `connected`/`countD` alone or — only with the registry left
empty — flips `connected` off adding exactly one transport disconnect. -/
theorem unsubscribeFn_effect (cfg : Config) (id : Nat) (s : PState) :
    (unsubscribeFn cfg id s).clientReconnectionTries = s.clientReconnectionTries ∧
    (unsubscribeFn cfg id s).isPollingActive = s.isPollingActive ∧
    (unsubscribeFn cfg id s).pollActivationsSinceSuccess = s.pollActivationsSinceSuccess ∧
    ((countD (unsubscribeFn cfg id s).out = countD s.out ∧
        (unsubscribeFn cfg id s).connected = s.connected) ∨
      (s.connected = true ∧ (unsubscribeFn cfg id s).subs = [] ∧
        (unsubscribeFn cfg id s).connected = false ∧
        countD (unsubscribeFn cfg id s).out = countD s.out + 1)) := by
  unfold unsubscribeFn
  cases hl : s.subs.lookup id with
  | none => exact ⟨rfl, rfl, rfl, Or.inl ⟨rfl, rfl⟩⟩
  | some t =>
      by_cases hc : s.connected = true
      · simp only [if_pos hc]
        obtain ⟨q1, q2, q3, q4, q5⟩ :=
          check_compose cfg t
            { s with out := s.out ++ [Action.subUnsubscribe id],
                     subs := s.subs.filter (fun p => p.1 != id) }
            s (s.subs.filter (fun p => p.1 != id)) rfl rfl rfl rfl rfl
            (by simp [countD_append, countD, List.countP_cons, isDisconnectPrim])
        refine ⟨q2, q3, q4, ?_⟩
        rcases q5 with ⟨ho, hcn⟩ | ⟨h1, hemp, h2, h3⟩
        · exact Or.inl ⟨ho, hcn⟩
        · exact Or.inr ⟨h1, by rw [q1, hemp], h2, h3⟩
      · simp only [if_neg hc]
        obtain ⟨q1, q2, q3, q4, q5⟩ :=
          check_compose cfg ""
            { s with subs := s.subs.filter (fun p => p.1 != id) }
            s (s.subs.filter (fun p => p.1 != id)) rfl rfl rfl rfl rfl rfl
        refine ⟨q2, q3, q4, ?_⟩
        rcases q5 with ⟨ho, hcn⟩ | ⟨h1, hemp, h2, h3⟩
        · exact Or.inl ⟨ho, hcn⟩
        · exact Or.inr ⟨h1, by rw [q1, hemp], h2, h3⟩

/-- A `connSuccess` step leaves the registry and the disconnect count
unchanged. -/
theorem connectSuccess_effect (cfg : Config) (s : PState) :
    countD (connectSuccessCallback cfg s).out = countD s.out ∧
    (connectSuccessCallback cfg s).subs = s.subs := by
  unfold connectSuccessCallback resolveAllPromises
  by_cases hb : s.isClientConnectionBroken = true <;>
    by_cases hc : s.connected = true <;>
      simp [hb, hc, countD_append, countD, List.countP_map, List.countP_eq_zero,
        Function.comp, isDisconnectPrim]

/-- The close callback keeps the retry counter within the configured
bound. -/
theorem connectClose_tries_le (cfg : Config) (s : PState)
    (h : s.clientReconnectionTries ≤ cfg.clientMaxReconnectionTries) :
    (connectCloseCallback cfg s).clientReconnectionTries
      ≤ cfg.clientMaxReconnectionTries := by
  unfold connectCloseCallback
  by_cases hf : s.isFirstConnection = true
  · rw [if_neg (by simp [hf] : ¬ (!s.isFirstConnection) = true)]
    by_cases hlt : s.clientReconnectionTries < cfg.clientMaxReconnectionTries
    · rw [if_pos hlt]
      exact hlt
    · rw [if_neg hlt]
      exact h
  · have hf' : s.isFirstConnection = false := by
      cases hb : s.isFirstConnection
      · rfl
      · exact absurd hb hf
    rw [if_pos (by simp [hf'] : (!s.isFirstConnection) = true)]
    by_cases hforced : s.isClientDisconnectedForced = true
    · rw [if_pos hforced]
      exact h
    · rw [if_neg hforced]
      by_cases hlt : ({ s with isClientConnectionBroken := true } :
          PState).clientReconnectionTries < cfg.clientMaxReconnectionTries
      · rw [if_pos hlt]
        have hp := (startAllPollings_preserved
          { s with isClientConnectionBroken := true }).1
        simpa [hp] using hlt
      · rw [if_neg hlt]
        have hp := (unsubscribeAllFn_effect cfg
          { s with isClientConnectionBroken := true, reconnectDelayCur := 0 }).2.1
        simpa [hp] using h

/-- Every step keeps the retry counter within the configured bound. -/
theorem step_tries_le (cfg : Config) (s : PState) (e : Event)
    (h : s.clientReconnectionTries ≤ cfg.clientMaxReconnectionTries) :
    (step cfg s e).clientReconnectionTries ≤ cfg.clientMaxReconnectionTries := by
  cases e with
  | subscribe t =>
      rw [show (step cfg s (.subscribe t)) = subscribeFn t s from rfl,
        (subscribeFn_effect t s).2.2.1]
      exact h
  | unsubscribe id =>
      rw [show (step cfg s (.unsubscribe id)) = unsubscribeFn cfg id s from rfl,
        (unsubscribeFn_effect cfg id s).1]
      exact h
  | unsubscribeAll =>
      rw [show (step cfg s .unsubscribeAll) = unsubscribeAllFn cfg s from rfl,
        (unsubscribeAllFn_effect cfg s).2.1]
      exact h
  | registerOnDisconnect cb => exact h
  | registerOnBeforeDisconnect hk => exact h
  | connError => exact h
  | connSuccess =>
      show (connectSuccessCallback cfg _).clientReconnectionTries ≤ _
      unfold connectSuccessCallback resolveAllPromises
      split <;> simp
  | connClose =>
      exact connectClose_tries_le cfg { s with connected := false } h

/-- Invariant preservation along any event trace. -/
theorem runFrom_preserves (cfg : Config) (P : PState → Prop)
    (hstep : ∀ s e, P s → P (step cfg s e)) :
    ∀ (es : List Event) (s : PState), P s → P (runFrom cfg s es) := by
  intro es
  induction es with
  | nil => intro s h; exact h
  | cons e es ih =>
      intro s h
      exact ih (step cfg s e) (hstep s e h)

/-- Invariant preservation along traces of caller-initiated
subscribe/unsubscribe operations. -/
theorem runFrom_preserves_subUnsub (cfg : Config) (P : PState → Prop)
    (hstep : ∀ s e, isSubOrUnsub e = true → P s → P (step cfg s e)) :
    ∀ (es : List Event) (s : PState),
      es.all isSubOrUnsub = true → P s → P (runFrom cfg s es) := by
  intro es
  induction es with
  | nil => intro s _ h; exact h
  | cons e es ih =>
      intro s hall h
      have h1 : isSubOrUnsub e = true ∧ es.all isSubOrUnsub = true := by
        simpa using hall
      exact ih (step cfg s e) h1.2 (hstep s e h1.1 h)

/-- The close callback activates the pollings body at most once since the
last success. -/
theorem connectClose_ghost (cfg : Config) (s : PState)
    (h1 : s.pollActivationsSinceSuccess ≤ 1)
    (h2 : s.isPollingActive = false → s.pollActivationsSinceSuccess = 0) :
    (connectCloseCallback cfg s).pollActivationsSinceSuccess ≤ 1 ∧
    ((connectCloseCallback cfg s).isPollingActive = false →
      (connectCloseCallback cfg s).pollActivationsSinceSuccess = 0) := by
  unfold connectCloseCallback
  by_cases hf : s.isFirstConnection = true
  · rw [if_neg (by simp [hf] : ¬ (!s.isFirstConnection) = true)]
    by_cases hlt : s.clientReconnectionTries < cfg.clientMaxReconnectionTries
    · rw [if_pos hlt]
      exact ⟨h1, h2⟩
    · rw [if_neg hlt]
      exact ⟨h1, h2⟩
  · have hf' : s.isFirstConnection = false := by
      cases hb : s.isFirstConnection
      · rfl
      · exact absurd hb hf
    rw [if_pos (by simp [hf'] : (!s.isFirstConnection) = true)]
    by_cases hforced : s.isClientDisconnectedForced = true
    · rw [if_pos hforced]
      exact ⟨h1, h2⟩
    · rw [if_neg hforced]
      by_cases hlt : ({ s with isClientConnectionBroken := true } :
          PState).clientReconnectionTries < cfg.clientMaxReconnectionTries
      · rw [if_pos hlt]
        unfold startAllPollings
        by_cases hpa : ({ s with isClientConnectionBroken := true } :
            PState).isPollingActive = true
        · rw [if_pos hpa]
          refine ⟨h1, ?_⟩
          intro hfalse
          simp only [PState.isPollingActive] at hpa hfalse
          simp_all
        · rw [if_neg hpa]
          have hz : s.pollActivationsSinceSuccess = 0 := by
            apply h2
            cases hb : s.isPollingActive
            · rfl
            · exact absurd (by simpa using hb) hpa
          refine ⟨?_, ?_⟩
          · simp [hz]
          · intro hfalse
            simp only [PState.isPollingActive] at hfalse
            simp_all
      · rw [if_neg hlt]
        obtain ⟨_, _, q3, q4, _⟩ := unsubscribeAllFn_effect cfg
          { s with isClientConnectionBroken := true, reconnectDelayCur := 0 }
        refine ⟨?_, ?_⟩
        · simpa [q4] using h1
        · intro hfalse
          have : s.isPollingActive = false := by
            have := hfalse
            simp only [q3] at this
            simpa using this
          simpa [q4] using h2 this

/-- Every step keeps the since-last-success pollings-activation count at
most one, zero while the `isPollingActive` guard is down. -/
theorem step_ghost (cfg : Config) (s : PState) (e : Event)
    (h1 : s.pollActivationsSinceSuccess ≤ 1)
    (h2 : s.isPollingActive = false → s.pollActivationsSinceSuccess = 0) :
    (step cfg s e).pollActivationsSinceSuccess ≤ 1 ∧
    ((step cfg s e).isPollingActive = false →
      (step cfg s e).pollActivationsSinceSuccess = 0) := by
  cases e with
  | subscribe t =>
      obtain ⟨_, _, _, e1, e2, _⟩ := subscribeFn_effect t s
      refine ⟨?_, ?_⟩
      · rw [show step cfg s (.subscribe t) = subscribeFn t s from rfl, e2]
        exact h1
      · rw [show step cfg s (.subscribe t) = subscribeFn t s from rfl, e1, e2]
        exact h2
  | unsubscribe id =>
      obtain ⟨_, e1, e2, _⟩ := unsubscribeFn_effect cfg id s
      refine ⟨?_, ?_⟩
      · rw [show step cfg s (.unsubscribe id) = unsubscribeFn cfg id s from rfl, e2]
        exact h1
      · rw [show step cfg s (.unsubscribe id) = unsubscribeFn cfg id s from rfl, e1, e2]
        exact h2
  | unsubscribeAll =>
      obtain ⟨_, _, e1, e2, _⟩ := unsubscribeAllFn_effect cfg s
      refine ⟨?_, ?_⟩
      · rw [show step cfg s .unsubscribeAll = unsubscribeAllFn cfg s from rfl, e2]
        exact h1
      · rw [show step cfg s .unsubscribeAll = unsubscribeAllFn cfg s from rfl, e1, e2]
        exact h2
  | registerOnDisconnect cb => exact ⟨h1, h2⟩
  | registerOnBeforeDisconnect hk => exact ⟨h1, h2⟩
  | connError => exact ⟨h1, h2⟩
  | connSuccess =>
      constructor
      · show (connectSuccessCallback cfg _).pollActivationsSinceSuccess ≤ 1
        unfold connectSuccessCallback resolveAllPromises
        split <;> simp
      · intro _
        show (connectSuccessCallback cfg _).pollActivationsSinceSuccess = 0
        unfold connectSuccessCallback resolveAllPromises
        split <;> rfl
  | connClose =>
      exact connectClose_ghost cfg { s with connected := false } h1 h2

/-- A close step either leaves the disconnect count unchanged or empties
the registry. -/
theorem connectClose_countD (cfg : Config) (s : PState) :
    countD (connectCloseCallback cfg s).out = countD s.out ∨
    (connectCloseCallback cfg s).subs = [] := by
  unfold connectCloseCallback
  by_cases hf : s.isFirstConnection = true
  · rw [if_neg (by simp [hf] : ¬ (!s.isFirstConnection) = true)]
    by_cases hlt : s.clientReconnectionTries < cfg.clientMaxReconnectionTries
    · rw [if_pos hlt]
      exact Or.inl rfl
    · rw [if_neg hlt]
      exact Or.inl rfl
  · have hf' : s.isFirstConnection = false := by
      cases hb : s.isFirstConnection
      · rfl
      · exact absurd hb hf
    rw [if_pos (by simp [hf'] : (!s.isFirstConnection) = true)]
    by_cases hforced : s.isClientDisconnectedForced = true
    · rw [if_pos hforced]
      exact Or.inl rfl
    · rw [if_neg hforced]
      by_cases hlt : ({ s with isClientConnectionBroken := true } :
          PState).clientReconnectionTries < cfg.clientMaxReconnectionTries
      · rw [if_pos hlt]
        obtain ⟨_, _, _, q4⟩ := startAllPollings_preserved
          { s with isClientConnectionBroken := true }
        exact Or.inl (by simpa using q4)
      · rw [if_neg hlt]
        obtain ⟨q1, _, _, _, _⟩ := unsubscribeAllFn_effect cfg
          { s with isClientConnectionBroken := true, reconnectDelayCur := 0 }
        exact Or.inr (by simpa using q1)

/-- Whenever a step leaves the registry non-empty, it issued no transport
disconnect. -/
theorem step_no_disconnect_when_nonempty (cfg : Config) (s : PState) (e : Event)
    (h : (step cfg s e).subs ≠ []) :
    countD (step cfg s e).out = countD s.out := by
  cases e with
  | subscribe t => exact (subscribeFn_effect t s).1
  | unsubscribe id =>
      rcases (unsubscribeFn_effect cfg id s).2.2.2 with ⟨ho, _⟩ | ⟨_, hemp, _, _⟩
      · exact ho
      · exact absurd hemp h
  | unsubscribeAll =>
      exact absurd (unsubscribeAllFn_effect cfg s).1 h
  | registerOnDisconnect cb => rfl
  | registerOnBeforeDisconnect hk => rfl
  | connError => rfl
  | connSuccess => exact (connectSuccess_effect cfg _).1
  | connClose =>
      rcases connectClose_countD cfg { s with connected := false } with ho | hemp
      · exact ho
      · exact absurd hemp h

/-- Along caller-initiated operations, the trace gains at most one
transport disconnect beyond the baseline, and none at all while still
connected. -/
theorem step_subUnsub_atMostOne (cfg : Config) (B : Nat) (s : PState) (e : Event)
    (he : isSubOrUnsub e = true)
    (h1 : countD s.out ≤ B + 1) (h2 : s.connected = true → countD s.out = B) :
    countD (step cfg s e).out ≤ B + 1 ∧
    ((step cfg s e).connected = true → countD (step cfg s e).out = B) := by
  cases e with
  | subscribe t =>
      obtain ⟨ho, hcn, _⟩ := subscribeFn_effect t s
      refine ⟨?_, ?_⟩
      · rw [show step cfg s (.subscribe t) = subscribeFn t s from rfl, ho]
        exact h1
      · intro hcc
        rw [show step cfg s (.subscribe t) = subscribeFn t s from rfl] at hcc ⊢
        rw [hcn] at hcc
        rw [ho]
        exact h2 hcc
  | unsubscribe id =>
      rcases (unsubscribeFn_effect cfg id s).2.2.2 with ⟨ho, hcn⟩ | ⟨hct, _, hcf, hbump⟩
      · refine ⟨?_, ?_⟩
        · rw [show step cfg s (.unsubscribe id) = unsubscribeFn cfg id s from rfl, ho]
          exact h1
        · intro hcc
          rw [show step cfg s (.unsubscribe id) = unsubscribeFn cfg id s from rfl] at hcc ⊢
          rw [hcn] at hcc
          rw [ho]
          exact h2 hcc
      · refine ⟨?_, ?_⟩
        · rw [show step cfg s (.unsubscribe id) = unsubscribeFn cfg id s from rfl, hbump,
            h2 hct]
        · intro hcc
          rw [show step cfg s (.unsubscribe id) = unsubscribeFn cfg id s from rfl] at hcc
          rw [hcf] at hcc
          cases hcc
  | unsubscribeAll =>
      rcases (unsubscribeAllFn_effect cfg s).2.2.2.2 with ⟨ho, hcn⟩ | ⟨hct, hcf, hbump⟩
      · refine ⟨?_, ?_⟩
        · rw [show step cfg s .unsubscribeAll = unsubscribeAllFn cfg s from rfl, ho]
          exact h1
        · intro hcc
          rw [show step cfg s .unsubscribeAll = unsubscribeAllFn cfg s from rfl] at hcc ⊢
          rw [hcn] at hcc
          rw [ho]
          exact h2 hcc
      · refine ⟨?_, ?_⟩
        · rw [show step cfg s .unsubscribeAll = unsubscribeAllFn cfg s from rfl, hbump,
            h2 hct]
        · intro hcc
          rw [show step cfg s .unsubscribeAll = unsubscribeAllFn cfg s from rfl] at hcc
          rw [hcf] at hcc
          cases hcc
  | registerOnDisconnect cb => simp [isSubOrUnsub] at he
  | registerOnBeforeDisconnect hk => simp [isSubOrUnsub] at he
  | connError => simp [isSubOrUnsub] at he
  | connSuccess => simp [isSubOrUnsub] at he
  | connClose => simp [isSubOrUnsub] at he

/-- A disconnected state sees `unsubscribeAll` as a pure registry wipe. -/
theorem unsubscribeAllFn_not_connected (cfg : Config) (s : PState)
    (hc : s.connected = false) :
    unsubscribeAllFn cfg s = { s with subs := [] } := by
  unfold unsubscribeAllFn
  rw [if_neg (by simp [hc] : ¬ s.connected = true)]
  unfold checkAndDisconnectClient
  rw [if_neg (by simp [hc] :
    ¬ (({ s with subs := ([] : List (Nat × String)) } : PState).subs.isEmpty
        && ({ s with subs := ([] : List (Nat × String)) } : PState).connected) = true)]

/-- The full outcome of an unforced close once retries are exhausted, on
a state whose transport is down. -/
theorem connectClose_exhausted (cfg : Config) (s : PState)
    (hf : s.isFirstConnection = false) (hforced : s.isClientDisconnectedForced = false)
    (hc : s.connected = false)
    (hge : cfg.clientMaxReconnectionTries ≤ s.clientReconnectionTries) :
    connectCloseCallback cfg s
      = { s with isClientConnectionBroken := true, reconnectDelayCur := 0, subs := [],
                 out := s.out ++ [Action.notifyDisconnect s.capturedDisconnectHandler] } := by
  unfold connectCloseCallback
  rw [if_pos (by simp [hf] : (!s.isFirstConnection) = true)]
  rw [if_neg (by simp [hforced] : ¬ s.isClientDisconnectedForced = true)]
  rw [if_neg (show ¬ ({ s with isClientConnectionBroken := true } :
      PState).clientReconnectionTries < cfg.clientMaxReconnectionTries from by
    simpa using Nat.not_lt.mpr hge)]
  dsimp only
  rw [unsubscribeAllFn_not_connected cfg
    { s with isClientConnectionBroken := true, reconnectDelayCur := 0 }
    (by simpa using hc)]

/-! ## Claims about the provider state machine -/

/-- The provider's default configuration. -/
def defaultCfg : Config := {}

/-- One subscriber, then three consecutive first-connection close
failures. -/
def firstConnFail3 : List Event :=
  [.subscribe "orders", .connClose, .connClose, .connClose]

/-- One subscriber, then four consecutive first-connection close
failures. -/
def firstConnFail4 : List Event := firstConnFail3 ++ [.connClose]

/-- C1 (counterexample): with the default max of 3, after the 3rd
consecutive failed first-connection close the waiter queue is NOT
drained: the counter has reached the max, yet the single waiter is still
suspended and the first-connection phase still open. -/
theorem first_three_failures_leave_waiters_cex :
    (run defaultCfg firstConnFail3).clientReconnectionTries = 3 ∧
    (run defaultCfg firstConnFail3).pendingWaiters = 1 ∧
    (run defaultCfg firstConnFail3).isFirstConnection = true :=
  ⟨rfl, rfl, rfl⟩

/-- C1 (amended): during the first-connection phase, a failed close with
`reconnectAttempts` below the max increments the counter and takes no
waiter action (waiters stay suspended, auto-retry delay untouched); a
failed close arriving once the counter has already reached the max
disables auto-retry, releases all waiters and ends the phase.  With the
default max of 3 the waiters are drained after the 4th consecutive
failed close, not the 3rd. -/
theorem firstConnection_close_failure_policy :
    (∀ (cfg : Config) (s : PState), s.isFirstConnection = true →
      (s.clientReconnectionTries < cfg.clientMaxReconnectionTries →
        (step cfg s .connClose).pendingWaiters = s.pendingWaiters ∧
        (step cfg s .connClose).clientReconnectionTries = s.clientReconnectionTries + 1 ∧
        (step cfg s .connClose).isFirstConnection = true ∧
        (step cfg s .connClose).reconnectDelayCur = s.reconnectDelayCur) ∧
      (cfg.clientMaxReconnectionTries ≤ s.clientReconnectionTries →
        (step cfg s .connClose).pendingWaiters = 0 ∧
        (step cfg s .connClose).reconnectDelayCur = 0 ∧
        (step cfg s .connClose).isFirstConnection = false)) ∧
    ((run defaultCfg firstConnFail3).pendingWaiters = 1 ∧
      (run defaultCfg firstConnFail4).pendingWaiters = 0 ∧
      (run defaultCfg firstConnFail4).reconnectDelayCur = 0 ∧
      (run defaultCfg firstConnFail4).isFirstConnection = false) := by
  constructor
  · intro cfg s hf
    constructor
    · intro hlt
      simp only [step]
      unfold connectCloseCallback
      rw [if_neg (by simp [hf] :
        ¬ (!({ s with connected := false } : PState).isFirstConnection) = true)]
      rw [if_pos (show ({ s with connected := false } : PState).clientReconnectionTries <
        cfg.clientMaxReconnectionTries from hlt)]
      exact ⟨rfl, rfl, hf, rfl⟩
    · intro hge
      simp only [step]
      unfold connectCloseCallback
      rw [if_neg (by simp [hf] :
        ¬ (!({ s with connected := false } : PState).isFirstConnection) = true)]
      rw [if_neg (show ¬ ({ s with connected := false } : PState).clientReconnectionTries <
        cfg.clientMaxReconnectionTries from Nat.not_lt.mpr hge)]
      exact ⟨rfl, rfl, rfl⟩
  · exact ⟨rfl, rfl, rfl, rfl⟩

theorem firstConnection_close_failure_policy_witness :
    (step defaultCfg (initialState defaultCfg) .connClose).pendingWaiters
        = (initialState defaultCfg).pendingWaiters ∧
    (step defaultCfg (initialState defaultCfg) .connClose).clientReconnectionTries
        = (initialState defaultCfg).clientReconnectionTries + 1 ∧
    (step defaultCfg (initialState defaultCfg) .connClose).isFirstConnection = true ∧
    (step defaultCfg (initialState defaultCfg) .connClose).reconnectDelayCur
        = (initialState defaultCfg).reconnectDelayCur :=
  (firstConnection_close_failure_policy.1 defaultCfg (initialState defaultCfg) rfl).1
    (by decide)

/-- C2: in every reachable state `reconnectAttempts` never exceeds
`maxReconnectAttempts`; and once retries are exhausted, the next
consecutive unforced post-success close failure empties the whole
registry via `unsubscribeAll` and appends exactly one disconnect
notification, with auto-retry disabled. -/
theorem reconnect_bound_and_exhausted_teardown :
    (∀ (cfg : Config) (es : List Event),
        (run cfg es).clientReconnectionTries ≤ cfg.clientMaxReconnectionTries) ∧
    (∀ (cfg : Config) (s : PState),
        s.isFirstConnection = false → s.isClientDisconnectedForced = false →
        cfg.clientMaxReconnectionTries ≤ s.clientReconnectionTries →
        (step cfg s .connClose).subs = [] ∧
        (step cfg s .connClose).out
          = s.out ++ [Action.notifyDisconnect s.capturedDisconnectHandler] ∧
        (step cfg s .connClose).reconnectDelayCur = 0) := by
  constructor
  · intro cfg es
    exact runFrom_preserves cfg
      (fun s => s.clientReconnectionTries ≤ cfg.clientMaxReconnectionTries)
      (fun s e h => step_tries_le cfg s e h) es (initialState cfg) (Nat.zero_le _)
  · intro cfg s hf hforced hge
    have hx := connectClose_exhausted cfg { s with connected := false }
      (by simpa using hf) (by simpa using hforced) rfl (by simpa using hge)
    simp only [step]
    rw [hx]
    exact ⟨rfl, rfl, rfl⟩

/-- A post-success state with one registry entry and retries exhausted. -/
def exhaustedState : PState :=
  { initialState defaultCfg with
      isFirstConnection := false
      clientReconnectionTries := 3
      subs := [(0, "orders")] }

theorem reconnect_bound_and_exhausted_teardown_witness :
    (run defaultCfg firstConnFail4).clientReconnectionTries
        ≤ defaultCfg.clientMaxReconnectionTries ∧
    (step defaultCfg exhaustedState .connClose).subs = [] ∧
    (step defaultCfg exhaustedState .connClose).out = [Action.notifyDisconnect 0] :=
  ⟨reconnect_bound_and_exhausted_teardown.1 defaultCfg firstConnFail4,
   (reconnect_bound_and_exhausted_teardown.2 defaultCfg exhaustedState
      rfl rfl (by decide)).1,
   (reconnect_bound_and_exhausted_teardown.2 defaultCfg exhaustedState
      rfl rfl (by decide)).2.1⟩

/-- A configuration with a message-send target. -/
def hookCfg : Config := { sendMessageUrl := some "app/goodbye" }

/-- A connected post-first-connection state holding one registry entry
and a registered before-disconnect hook. -/
def sOneSub : PState :=
  { initialState hookCfg with
      subs := [(0, "orders")]
      nextId := 1
      isFirstConnection := false
      connected := true
      activeConn := true
      beforeDisconnectCb := some (fun t => t) }

/-- C3: over any sequence of caller subscribe/unsubscribe operations the
transport disconnect primitive is never issued while the registry is
non-empty and is issued at most once beyond the baseline; and the
unsubscribe that empties the registry while connected sets the
forced-disconnect flag and — with a hook registered and a send target
configured — invokes the hook with the last remaining topic id and sends
its result as a message before issuing the disconnect primitive. -/
theorem emptyRegistry_disconnect_policy :
    (∀ (cfg : Config) (s : PState) (e : Event), (step cfg s e).subs ≠ [] →
        countD (step cfg s e).out = countD s.out) ∧
    (∀ (cfg : Config) (s0 : PState) (es : List Event), es.all isSubOrUnsub = true →
        countD (runFrom cfg s0 es).out ≤ countD s0.out + 1) ∧
    (∀ (cfg : Config) (s : PState) (id : Nat) (t : String) (hook : String → String)
        (url : String), s.connected = true → s.subs = [(id, t)] →
        s.beforeDisconnectCb = some hook → cfg.sendMessageUrl = some url →
        (step cfg s (.unsubscribe id)).out
          = s.out ++ [Action.subUnsubscribe id, Action.hookCall t,
              Action.send url (hook t), Action.disconnectPrim,
              Action.notifyDisconnect s.capturedDisconnectHandler] ∧
        (step cfg s (.unsubscribe id)).isClientDisconnectedForced = true ∧
        (step cfg s (.unsubscribe id)).subs = [] ∧
        (step cfg s (.unsubscribe id)).connected = false) := by
  refine ⟨?_, ?_, ?_⟩
  · intro cfg s e h
    exact step_no_disconnect_when_nonempty cfg s e h
  · intro cfg s0 es hall
    have inv := runFrom_preserves_subUnsub cfg
      (fun s => countD s.out ≤ countD s0.out + 1 ∧
        (s.connected = true → countD s.out = countD s0.out))
      (fun s e he h => step_subUnsub_atMostOne cfg (countD s0.out) s e he h.1 h.2)
      es s0 hall ⟨Nat.le_succ _, fun _ => rfl⟩
    exact inv.1
  · intro cfg s id t hook url hc hsubs hhook hurl
    have hl : s.subs.lookup id = some t := by
      rw [hsubs]
      simp
    simp only [step]
    unfold unsubscribeFn
    simp only [hl]
    unfold checkAndDisconnectClient
    simp [hc, hsubs, hhook, hurl]

theorem emptyRegistry_disconnect_policy_witness :
    countD (runFrom hookCfg sOneSub [.unsubscribe 0]).out ≤ countD sOneSub.out + 1 ∧
    (step hookCfg sOneSub (.unsubscribe 0)).out
      = sOneSub.out ++ [Action.subUnsubscribe 0, Action.hookCall "orders",
          Action.send "app/goodbye" "orders", Action.disconnectPrim,
          Action.notifyDisconnect 0] ∧
    (step hookCfg sOneSub (.unsubscribe 0)).isClientDisconnectedForced = true ∧
    (step hookCfg sOneSub (.unsubscribe 0)).subs = [] :=
  ⟨emptyRegistry_disconnect_policy.2.1 hookCfg sOneSub [.unsubscribe 0] rfl,
   (emptyRegistry_disconnect_policy.2.2 hookCfg sOneSub 0 "orders" (fun t => t)
      "app/goodbye" rfl rfl rfl rfl).1,
   (emptyRegistry_disconnect_policy.2.2 hookCfg sOneSub 0 "orders" (fun t => t)
      "app/goodbye" rfl rfl rfl rfl).2.1,
   (emptyRegistry_disconnect_policy.2.2 hookCfg sOneSub 0 "orders" (fun t => t)
      "app/goodbye" rfl rfl rfl rfl).2.2.1⟩

/-- A break followed by a successful reconnect. -/
def breakThenReconnect : List Event :=
  [.subscribe "t", .connSuccess, .connClose, .connSuccess]

/-- C4 (counterexample): after a break, the next successful connect
leaves `isClientConnectionBroken` still set — the success callback never
clears the connection-broken flag, refuting that postcondition. -/
theorem success_leaves_broken_flag_cex :
    (run defaultCfg breakThenReconnect).isClientConnectionBroken = true ∧
    (run defaultCfg breakThenReconnect).connected = true :=
  ⟨rfl, rfl⟩

/-- C4 (amended): every successful connect resets `reconnectAttempts` to
0, ends the first-connection phase, clears `isPollingActive` and
restores the auto-retry delay — but it does NOT clear the
connection-broken flag, which keeps its previous value. -/
theorem connectSuccess_postconditions (cfg : Config) (s : PState) :
    (step cfg s .connSuccess).clientReconnectionTries = 0 ∧
    (step cfg s .connSuccess).isFirstConnection = false ∧
    (step cfg s .connSuccess).isPollingActive = false ∧
    (step cfg s .connSuccess).reconnectDelayCur = cfg.reconnectDelay ∧
    (step cfg s .connSuccess).isClientConnectionBroken = s.isClientConnectionBroken := by
  simp only [step]
  unfold connectSuccessCallback resolveAllPromises
  split <;> exact ⟨rfl, rfl, rfl, rfl, rfl⟩

/-- Register a disconnect callback after the first success, then exhaust
the retries. -/
def registerThenExhaust : List Event :=
  [.subscribe "t", .connSuccess, .registerOnDisconnect 7, .connClose, .connClose,
   .connClose, .connClose]

/-- C5 (code bug): `onDisconnect` writes the ref, but the disconnect
paths invoke `onDisconnectHandler`, which captured the initial no-op
(identity 0) once at mount via `useCallback(disconnectCallback.current,
[])`; after registering callback 7 and exhausting retries, the captured
no-op runs and the registered callback never does. -/
theorem registered_disconnect_callback_never_runs :
    (run defaultCfg registerThenExhaust).registeredDisconnectCb = 7 ∧
    (run defaultCfg registerThenExhaust).out
      = [Action.subStartPolling 0, Action.subBind 0, Action.startPollingAll,
         Action.subStartPolling 0, Action.notifyDisconnect 0] ∧
    Action.notifyDisconnect 7 ∉ (run defaultCfg registerThenExhaust).out :=
  ⟨rfl, rfl, by decide⟩

/-- C9: between one successful connect and the next, the guarded body of
`startAllPollings` runs at most once, however many close events arrive:
the `isPollingActive` flag gates the body and only a successful connect
resets it. -/
theorem startAllPollings_body_at_most_once (cfg : Config) (es : List Event) :
    (run cfg es).pollActivationsSinceSuccess ≤ 1 := by
  have inv := runFrom_preserves cfg
    (fun s => s.pollActivationsSinceSuccess ≤ 1 ∧
      (s.isPollingActive = false → s.pollActivationsSinceSuccess = 0))
    (fun s e h => step_ghost cfg s e h.1 h.2) es (initialState cfg)
    ⟨Nat.zero_le _, fun _ => rfl⟩
  exact inv.1

end WS
